import Mathlib

/-!
Verification development for the space-weather-reports CLI repository.

The file shallowly embeds the two storage engines of the repository:

* `FlareTracker` — `src/flare_tracker_simple.py` (`SimpleFlareTracker`):
  the flare deduplication / merge resolver (`store_flares`), the retention
  policy (`cleanup_old_flares`), the 24-hour window query
  (`get_flares_last_24h`) and the rollup (`get_flares_summary`).
* `CmeTracker` — `src/cme_tracker_enhanced.py` (`EnhancedCMETracker`):
  the relational CME store (`store_cme` with its analysis / model-run /
  spacecraft-impact children) and the arrival-window query
  (`get_cmes_with_arrivals_in_window`).

Modelling conventions (stated once, used throughout):

* SQLite tables are lists of row structures plus a monotone `AUTOINCREMENT`
  counter; `INSERT OR REPLACE` deletes the rows violating the relevant
  `UNIQUE` constraint and appends a fresh row with a fresh id (SQLite with
  `AUTOINCREMENT` never reuses rowids).
* Python `float` values are exact here: the source only ever compares
  decimal literals parsed from text.  They are represented by `Frac`,
  an unnormalised fraction of integers (so that everything computes in the
  kernel); `Frac.val` is its value in `ℚ` and is used by the theorem
  statements.
* Python truthiness of optional ints / strings (`None`, `0`, `''` are
  falsy) is modelled explicitly by `truthyI` / `truthyS`.
* Date strings `YYYY-MM-DD` are canonical (always produced by `strftime`),
  so a date is modelled as its day index `d : ℤ`, whose midnight epoch is
  `86400 * d`; a `HH:MM:SS` time-of-day string is modelled as its seconds
  value, so `strptime(f"{date} {peak}")` is `86400 * d + peak`.  ISO-8601
  instants in the CME feed are likewise modelled by their epoch value.
* `abs(x - y) <= n` on integer timestamps is written `(x - y).natAbs ≤ n`.
-/

/-- An unnormalised fraction `num / den` (`den` positive wherever the
source produces one).  Stands in for Python's parsed `float` magnitudes so
that all comparisons are kernel-computable integer arithmetic. -/
structure Frac where
  num : ℤ
  den : ℤ
  deriving Repr, DecidableEq

namespace Frac

/-- The rational value of a fraction. -/
def val (a : Frac) : ℚ := (a.num : ℚ) / (a.den : ℚ)

/-- Exact addition (cross-multiplication, no normalisation). -/
def add (a b : Frac) : Frac := ⟨a.num * b.den + b.num * a.den, a.den * b.den⟩

/-- Exact subtraction. -/
def sub (a b : Frac) : Frac := ⟨a.num * b.den - b.num * a.den, a.den * b.den⟩

/-- `a ≤ b` by cross-multiplication (valid when both `den`s are positive). -/
def leB (a b : Frac) : Bool := a.num * b.den ≤ b.num * a.den

/-- `a < b` by cross-multiplication (valid when both `den`s are positive). -/
def ltB (a b : Frac) : Bool := a.num * b.den < b.num * a.den

end Frac

namespace FlareTracker

/-- Digit list to natural number, e.g. `['1','2'] ↦ 12`. -/
def natOfDigits (l : List Char) : Nat :=
  l.foldl (fun a c => 10 * a + (c.toNat - '0'.toNat)) 0

/-- Exact value of the decimal literal `ip.fp` (e.g. `"1" "4" ↦ 14/10`). -/
def decFrac (ip fp : List Char) : Frac :=
  ⟨natOfDigits ip * 10 ^ fp.length + natOfDigits fp, 10 ^ fp.length⟩

/-- `re.match(r'([A-Z])(\d+\.?\d*)', flare_class)` followed by
`float(group(2))`: an upper-case letter, then one or more digits, an
optional dot and further digits; anything after the matched prefix is
ignored, exactly as `re.match` does. -/
def parseClassMag (s : String) : Option (Char × Frac) :=
  match s.data with
  | [] => none
  | c :: rest =>
    if 'A' ≤ c ∧ c ≤ 'Z' then
      if rest.takeWhile Char.isDigit = [] then none
      else
        match rest.dropWhile Char.isDigit with
        | '.' :: r2 =>
          some (c, decFrac (rest.takeWhile Char.isDigit) (r2.takeWhile Char.isDigit))
        | _ => some (c, decFrac (rest.takeWhile Char.isDigit) [])
    else none

/-- The `0.2` magnitude tolerance. -/
def tol : Frac := ⟨1, 5⟩

/-- Python truthiness of an optional integer (`None` and `0` are falsy). -/
def truthyI : Option ℤ → Bool
  | none => false
  | some t => t ≠ 0

/-- Python truthiness of an optional string (`None` and `''` are falsy). -/
def truthyS : Option String → Bool
  | none => false
  | some s => s ≠ ""

/-- An incoming flare dict as handed to `store_flares` (one element of the
`flares` list).  `event_date` is the day index of the `YYYY-MM-DD` string,
`peak_time` the seconds-of-day value of the `HH:MM:SS` string. -/
structure Candidate where
  event_date : ℤ
  event_time : Option String
  event_timestamp : Option ℤ
  flare_class : String
  region : Option String
  location : Option String
  peak_time : Option ℤ
  end_time : Option String
  raw_text : String
  deriving Repr, DecidableEq

/-- A row of the `flares` table. -/
structure FlareRow where
  id : Nat
  event_date : ℤ
  event_time : Option String
  event_timestamp : Option ℤ
  flare_class : String
  region : Option String
  location : Option String
  peak_time : Option ℤ
  end_time : Option String
  scraped_at : ℤ
  source : String
  raw_text : String
  deriving Repr, DecidableEq

/-- Midnight epoch of the incoming record's `event_date` (see header). -/
def dayEpoch (f : Candidate) : ℤ := 86400 * f.event_date

/-- Magnitude tolerance gate of `store_flares`: with a parseable
`class_letter`+`magnitude` an existing row must have the same letter and a
magnitude inside `[magnitude - 0.2, magnitude + 0.2]`; with an unparseable
class the SQL query itself filters on exact `flare_class` equality (that
filter is folded in here). -/
def magEligible (f : Candidate) (r : FlareRow) : Bool :=
  match parseClassMag f.flare_class with
  | none => r.flare_class = f.flare_class
  | some (L, m) =>
    match parseClassMag r.flare_class with
    | none => false
    | some (L2, m2) =>
      decide (L2 = L) && Frac.leB (m.sub tol) m2 && Frac.leB m2 (m.add tol)

/-- Predicate 1: both start timestamps present (`is not None`) and within
5 minutes. -/
def pred1 (f : Candidate) (r : FlareRow) : Bool :=
  match f.event_timestamp, r.event_timestamp with
  | some t, some t2 => (t - t2).natAbs ≤ 300
  | _, _ => false

/-- Predicate 2: incoming NOAA time against existing LMSAL `peak_time`
(existing peak combined with the incoming `event_date`), within 2
minutes.  Both guards are Python truthiness tests. -/
def pred2 (src : String) (f : Candidate) (r : FlareRow) : Bool :=
  decide (src = "NOAA") && truthyI f.event_timestamp &&
    decide (r.source = "LMSAL") &&
    match f.event_timestamp, r.peak_time with
    | some t, some p => (t - (dayEpoch f + p)).natAbs ≤ 120
    | _, _ => false

/-- Predicate 3: incoming LMSAL `peak_time` against existing NOAA time
(truthy existing timestamp), within 2 minutes. -/
def pred3 (src : String) (f : Candidate) (r : FlareRow) : Bool :=
  decide (src = "LMSAL") && decide (r.source = "NOAA") &&
    truthyI r.event_timestamp &&
    match f.peak_time, r.event_timestamp with
    | some p, some t2 => ((dayEpoch f + p) - t2).natAbs ≤ 120
    | _, _ => false

/-- Predicate 4: both LMSAL, both peak times, within 1 minute (both peaks
are combined with the incoming `event_date`, so the bases cancel). -/
def pred4 (src : String) (f : Candidate) (r : FlareRow) : Bool :=
  decide (src = "LMSAL") && decide (r.source = "LMSAL") &&
    match f.peak_time, r.peak_time with
    | some p, some q => ((dayEpoch f + p) - (dayEpoch f + q)).natAbs ≤ 60
    | _, _ => false

/-- Predicate 5: identical (truthy) location strings and truthy start
timestamps within 30 minutes. -/
def pred5 (f : Candidate) (r : FlareRow) : Bool :=
  truthyS f.location && truthyS r.location &&
    decide (f.location = r.location) &&
    truthyI f.event_timestamp && truthyI r.event_timestamp &&
    match f.event_timestamp, r.event_timestamp with
    | some t, some t2 => (t - t2).natAbs ≤ 1800
    | _, _ => false

/-- The five predicates in source order (0-based: index `i` is the
spec's predicate `i+1`). -/
def predAt (src : String) (f : Candidate) (r : FlareRow) : Fin 5 → Bool
  | ⟨0, _⟩ => pred1 f r
  | ⟨1, _⟩ => pred2 src f r
  | ⟨2, _⟩ => pred3 src f r
  | ⟨3, _⟩ => pred4 src f r
  | ⟨4, _⟩ => pred5 f r

/-- The per-candidate body of `store_flares`' matching loop: skip the row
unless it passes the magnitude gate, then try the predicates in source
order; `match_found` short-circuits (each later test is guarded by
`if not match_found`), so the first satisfied predicate is the match
reason. -/
def rowMatch (src : String) (f : Candidate) (r : FlareRow) : Option (Fin 5) :=
  if magEligible f r then
    if pred1 f r then some 0
    else if pred2 src f r then some 1
    else if pred3 src f r then some 2
    else if pred4 src f r then some 3
    else if pred5 f r then some 4
    else none
  else none

/-- The rows the `SELECT ... WHERE event_date = ?` (resp. the
`event_date = ? AND flare_class = ?` fallback) returns for an incoming
flare.  The `ORDER BY event_timestamp DESC` scan order is abstracted: the
theorems below quantify over every list order, which covers it; the
class-equality filter of the fallback query is folded into `magEligible`. -/
def dateCandidates (f : Candidate) (rows : List FlareRow) : List FlareRow :=
  rows.filter (fun r => r.event_date = f.event_date)

/-- The loop scanning `existing_candidates` and breaking at the first row
with `match_found`. -/
def findExisting (src : String) (f : Candidate) (cands : List FlareRow) :
    Option FlareRow :=
  cands.find? (fun r => (rowMatch src f r).isSome)

/-- The field-by-field merge block of `store_flares` (the `updates` dict
applied by the dynamic `UPDATE`): `prefer_incoming` iff the incoming source
is LMSAL and the stored row came from NOAA; otherwise incoming values only
fill fields the row lacks.  `scraped_at` is refreshed iff some update
fired. -/
def mergeRow (src : String) (scrapedAt : ℤ) (f : Candidate) (r : FlareRow) :
    FlareRow :=
  let prefer : Bool := decide (src = "LMSAL") && decide (r.source = "NOAA")
  let updClass : Bool := prefer && decide (f.flare_class ≠ r.flare_class)
  let updRegion : Bool := truthyS f.region && (! truthyS r.region || prefer)
  let updLocation : Bool := truthyS f.location && (! truthyS r.location || prefer)
  let updTime : Bool := truthyS f.event_time && (! truthyS r.event_time || prefer)
  let updPeak : Bool := f.peak_time.isSome && (r.peak_time.isNone || prefer)
  let updEnd : Bool := truthyS f.end_time && (! truthyS r.end_time || prefer)
  let shouldUpdate : Bool :=
    updClass || updRegion || updLocation || updTime || updPeak || updEnd || prefer
  { r with
    flare_class := if updClass then f.flare_class else r.flare_class
    region := if updRegion then f.region else r.region
    location := if updLocation then f.location else r.location
    event_time := if updTime then f.event_time else r.event_time
    event_timestamp :=
      if updTime && truthyI f.event_timestamp then f.event_timestamp
      else r.event_timestamp
    peak_time := if updPeak then f.peak_time else r.peak_time
    end_time := if updEnd then f.end_time else r.end_time
    source := if prefer then src else r.source
    scraped_at := if shouldUpdate then scrapedAt else r.scraped_at }

/-- Whether the merge would change anything (`should_update`). -/
def wouldUpdate (src : String) (f : Candidate) (r : FlareRow) : Bool :=
  let prefer : Bool := decide (src = "LMSAL") && decide (r.source = "NOAA")
  (prefer && decide (f.flare_class ≠ r.flare_class)) ||
    (truthyS f.region && (! truthyS r.region || prefer)) ||
    (truthyS f.location && (! truthyS r.location || prefer)) ||
    (truthyS f.event_time && (! truthyS r.event_time || prefer)) ||
    (f.peak_time.isSome && (r.peak_time.isNone || prefer)) ||
    (truthyS f.end_time && (! truthyS r.end_time || prefer)) || prefer

/-- Outcome of storing one flare: a fresh `INSERT`, an `UPDATE` of row
`id`, or a skipped exact duplicate. -/
inductive StoreOutcome where
  | inserted
  | updated (id : Nat)
  | duplicate (id : Nat)
  deriving Repr, DecidableEq

/-- The flares table plus its `AUTOINCREMENT` counter. -/
structure FlareDB where
  rows : List FlareRow
  nextId : Nat
  deriving Repr, DecidableEq

/-- The row an `INSERT INTO flares` creates for an unmatched candidate. -/
def insertRow (src : String) (scrapedAt : ℤ) (f : Candidate) (id : Nat) :
    FlareRow :=
  { id := id
    event_date := f.event_date
    event_time := f.event_time
    event_timestamp := f.event_timestamp
    flare_class := f.flare_class
    region := f.region
    location := f.location
    peak_time := f.peak_time
    end_time := f.end_time
    scraped_at := scrapedAt
    source := src
    raw_text := f.raw_text }

/-- One iteration of `store_flares`' outer loop for a single incoming
flare: find a matching existing row among the same-date candidates, merge
into it (the `UPDATE` only runs when `should_update`), otherwise insert a
new row. -/
def storeOne (src : String) (scrapedAt : ℤ) (f : Candidate) (db : FlareDB) :
    FlareDB × StoreOutcome :=
  match findExisting src f (dateCandidates f db.rows) with
  | some ex =>
    if wouldUpdate src f ex then
      ({ db with
          rows := db.rows.map (fun r =>
            if r.id = ex.id then mergeRow src scrapedAt f ex else r) },
        .updated ex.id)
    else (db, .duplicate ex.id)
  | none =>
    ({ rows := db.rows ++ [insertRow src scrapedAt f db.nextId]
       nextId := db.nextId + 1 },
      .inserted)

/-- `store_flares` over a whole batch (shared `scraped_at`, as in the
source). -/
def store_flares (src : String) (scrapedAt : ℤ) (flares : List Candidate)
    (db : FlareDB) : FlareDB :=
  flares.foldl (fun d f => (storeOne src scrapedAt f d).1) db

/-- `cleanup_old_flares`: `DELETE FROM flares WHERE event_timestamp < cutoff
AND event_timestamp IS NOT NULL` with `cutoff = now - hours*3600`; returns
the surviving rows and the deleted count. -/
def cleanup_old_flares (now : ℤ) (hours : ℤ) (rows : List FlareRow) :
    List FlareRow × Nat :=
  let cutoff := now - 3600 * hours
  let kept := rows.filter (fun r =>
    match r.event_timestamp with
    | none => true
    | some t => ¬ (t < cutoff))
  (kept, rows.length - kept.length)

/-- The projection the 24-hour `SELECT` returns. -/
structure FlareView where
  event_date : ℤ
  event_time : Option String
  flare_class : String
  region : Option String
  location : Option String
  raw_text : String
  deriving Repr, DecidableEq

/-- Projection of a stored row to the 24-hour view columns. -/
def viewOf (r : FlareRow) : FlareView :=
  { event_date := r.event_date
    event_time := r.event_time
    flare_class := r.flare_class
    region := r.region
    location := r.location
    raw_text := r.raw_text }

/-- `get_flares_last_24h`: `WHERE event_timestamp >= cutoff OR
event_timestamp IS NULL` (the `ORDER BY` is immaterial to the membership
statements proved below). -/
def get_flares_last_24h (now : ℤ) (rows : List FlareRow) : List FlareView :=
  (rows.filter (fun r =>
    match r.event_timestamp with
    | none => true
    | some t => now - 86400 ≤ t)).map viewOf

/-- Does the class string start with the given letter
(`flare_class.startswith(c)`)? -/
def startsWithChar (c : Char) (s : String) : Bool :=
  match s.data with
  | [] => false
  | a :: _ => a = c

/-- `re.sub(r'[^0-9.]', '', s)`: keep only digits and dots. -/
def stripToNum (l : List Char) : List Char :=
  l.filter (fun c => c.isDigit || c = '.')

/-- Python `float()` of a string made of digits and dots: at most one dot
and at least one digit; `none` models the `ValueError`. -/
def pyFloat (l : List Char) : Option Frac :=
  match l.dropWhile Char.isDigit with
  | [] =>
    if l.takeWhile Char.isDigit = [] then none
    else some ⟨natOfDigits (l.takeWhile Char.isDigit), 1⟩
  | '.' :: r2 =>
    if r2.dropWhile Char.isDigit ≠ [] then none
    else if l.takeWhile Char.isDigit = [] ∧ r2.takeWhile Char.isDigit = [] then none
    else some (decFrac (l.takeWhile Char.isDigit) (r2.takeWhile Char.isDigit))
  | _ :: _ => none

/-- `float(re.sub(r'[^0-9.]', '', flare_class[1:]) or '0')`. -/
def magAfterLetter (s : String) : Option Frac :=
  if stripToNum s.data.tail = [] then some ⟨0, 1⟩
  else pyFloat (stripToNum s.data.tail)

/-- `flare_strength` of `get_flares_summary`: X ↦ 1000+mag, M ↦ 100+mag,
C ↦ 10+mag, anything else ↦ 0.  `none` models the `ValueError` Python
would raise on a class whose stripped magnitude is not a float literal. -/
def flare_strength (s : String) : Option Frac :=
  if startsWithChar 'X' s then (magAfterLetter s).map (Frac.add ⟨1000, 1⟩)
  else if startsWithChar 'M' s then (magAfterLetter s).map (Frac.add ⟨100, 1⟩)
  else if startsWithChar 'C' s then (magAfterLetter s).map (Frac.add ⟨10, 1⟩)
  else some ⟨0, 1⟩

/-- The key `max(flares, key=...)` ranks by (total on the rows the claims
quantify over, where `flare_strength` is defined). -/
def strengthKey (v : FlareView) : Frac := (flare_strength v.flare_class).getD ⟨0, 1⟩

/-- Python `max(l, key=key)`: fold keeping the current winner, replacing it
only on a strictly greater key (so the first maximal element wins). -/
def pyMaxBy (key : FlareView → Frac) : List FlareView → Option FlareView
  | [] => none
  | x :: xs =>
    some (xs.foldl (fun acc y => if Frac.ltB (key acc) (key y) then y else acc) x)

/-- The rollup `get_flares_summary` returns. -/
structure FlaresSummary where
  total_count : Nat
  x_class_count : Nat
  m_class_count : Nat
  c_class_count : Nat
  strongest_flare : Option FlareView
  flares_list : List FlareView
  deriving Repr, DecidableEq

/-- `get_flares_summary`: the last-24h list, per-letter counts, and the
strongest flare by `flare_strength`. -/
def get_flares_summary (now : ℤ) (rows : List FlareRow) : FlaresSummary :=
  let fl := get_flares_last_24h now rows
  match fl with
  | [] =>
    { total_count := 0, x_class_count := 0, m_class_count := 0
      c_class_count := 0, strongest_flare := none, flares_list := [] }
  | _ =>
    { total_count := fl.length
      x_class_count := (fl.filter (fun f => startsWithChar 'X' f.flare_class)).length
      m_class_count := (fl.filter (fun f => startsWithChar 'M' f.flare_class)).length
      c_class_count := (fl.filter (fun f => startsWithChar 'C' f.flare_class)).length
      strongest_flare := pyMaxBy strengthKey fl
      flares_list := fl }

end FlareTracker

namespace CmeTracker

/-- A spacecraft impact entry of an `enlilList` element (`impactList`). -/
structure ImpactP where
  location : String
  arrivalTime : Option ℤ
  deriving Repr, DecidableEq

/-- A WSA-ENLIL model run entry of an analysis (`enlilList`); absent /
empty time strings are `none`, instants are epoch values (see header). -/
structure EnlilP where
  modelCompletionTime : Option ℤ
  estimatedShockArrivalTime : Option ℤ
  estimatedDuration : Option Frac
  rmin_re : Option Frac
  kp_90 : Option ℤ
  kp_135 : Option ℤ
  kp_180 : Option ℤ
  impactList : List ImpactP
  deriving Repr, DecidableEq

/-- One element of a DONKI CME's `cmeAnalyses`. -/
structure AnalysisP where
  featureCode : String
  time21_5 : Option ℤ
  measurementTechnique : String
  levelOfData : ℤ
  speed : Option Frac
  ctype : String
  longitude : Option Frac
  latitude : Option Frac
  halfAngle : Option Frac
  imageType : String
  enlilList : List EnlilP
  deriving Repr, DecidableEq

/-- A DONKI CME payload as consumed by `store_cme` (fields the source
reads; `startTime` is assumed well-formed — on a malformed one the whole
`store_cme` call is caught and writes nothing). -/
structure CmeP where
  activityID : String
  startTime : ℤ
  sourceLocation : String
  activeRegionNum : Option ℤ
  instruments : List String
  note : String
  link : String
  linkedEvents : List String
  cmeAnalyses : List AnalysisP
  deriving Repr, DecidableEq

/-- A row of `cmes_enhanced`. -/
structure CmeRow where
  id : Nat
  activity_id : String
  start_time : ℤ
  start_timestamp : ℤ
  source_location : String
  source_region : Option String
  associated_flare : Option String
  note : String
  instruments : String
  donki_url : String
  created_at : ℤ
  updated_at : ℤ
  deriving Repr, DecidableEq

/-- A row of `cme_analyses`. -/
structure AnalysisRow where
  id : Nat
  cme_id : Nat
  activity_id : String
  analysis_id : Nat
  analysis_type : String
  measurement_time : Option ℤ
  measurement_timestamp : Option ℤ
  technique : String
  data_level : ℤ
  speed : Option Frac
  ctype : String
  direction_lon : Option Frac
  direction_lat : Option Frac
  half_angle : Option Frac
  time_at_21_5_rs : Option ℤ
  image_type : String
  created_at : ℤ
  deriving Repr, DecidableEq

/-- A row of `cme_model_runs`. -/
structure ModelRunRow where
  id : Nat
  analysis_id : Nat
  activity_id : String
  run_number : Nat
  model_completion_time : Option ℤ
  model_completion_timestamp : Option ℤ
  earth_arrival_time : Option ℤ
  earth_arrival_timestamp : Option ℤ
  impact_duration : Option Frac
  rmin_earth_radii : Option Frac
  kp_90 : Option ℤ
  kp_135 : Option ℤ
  kp_180 : Option ℤ
  created_at : ℤ
  deriving Repr, DecidableEq

/-- A row of `cme_spacecraft_impacts`. -/
structure ImpactRow where
  id : Nat
  model_run_id : Nat
  analysis_id : Nat
  activity_id : String
  spacecraft_name : String
  arrival_time : Option ℤ
  arrival_timestamp : Option ℤ
  created_at : ℤ
  deriving Repr, DecidableEq

/-- The four CME tables, each with its `AUTOINCREMENT` counter. -/
structure CmeDB where
  cmes : List CmeRow
  analyses : List AnalysisRow
  runs : List ModelRunRow
  impacts : List ImpactRow
  nextCme : Nat
  nextAnalysis : Nat
  nextRun : Nat
  nextImpact : Nat
  deriving Repr, DecidableEq

/-- The empty database created by `_init_database`. -/
def emptyDB : CmeDB :=
  { cmes := [], analyses := [], runs := [], impacts := []
    nextCme := 0, nextAnalysis := 0, nextRun := 0, nextImpact := 0 }

/-- Stand-in for Python's (process-deterministic) string `hash` in
`abs(hash(f"{activity_id}_{analysis_type}_{measurement_time}")) % 1000000`:
any fixed deterministic function of the same three inputs models the code's
behaviour within one sync run; determinism, not the values, is what the
claims depend on. -/
def analysisKey (aid ty : String) (mt : Option ℤ) : Nat :=
  (131 * (131 * (aid.data.foldl (fun a c => 131 * a + c.toNat) 7) +
      ty.data.foldl (fun a c => 131 * a + c.toNat) 7) +
    (match mt with | none => 0 | some t => t.natAbs)) % 1000000

/-- Simple list-infix test (`'FLR' in e['activityID']`). -/
def hasInfixChars : List Char → List Char → Bool
  | _, [] => false
  | pat, c :: rest => pat.isPrefixOf (c :: rest) || hasInfixChars pat rest

/-- `_store_spacecraft_impact`: `INSERT OR REPLACE` into a table whose only
unique column is the autoincrement primary key, i.e. a plain insert. -/
def storeImpactM (now : ℤ) (runId anId : Nat) (aid : String) (im : ImpactP)
    (db : CmeDB) : CmeDB :=
  let row : ImpactRow :=
    { id := db.nextImpact
      model_run_id := runId
      analysis_id := anId
      activity_id := aid
      spacecraft_name := im.location
      arrival_time := im.arrivalTime
      arrival_timestamp := im.arrivalTime
      created_at := now }
  { db with impacts := db.impacts ++ [row], nextImpact := db.nextImpact + 1 }

/-- `_store_model_run`: `INSERT OR REPLACE INTO cme_model_runs` under
`UNIQUE(analysis_id, run_number)` — note `analysis_id` here is the
*database rowid* of the parent analysis row passed by `_store_analysis` —
then the run's spacecraft impacts. -/
def storeModelRunM (now : ℤ) (anId : Nat) (aid : String) (runNumber : Nat)
    (e : EnlilP) (db : CmeDB) : CmeDB :=
  let row : ModelRunRow :=
    { id := db.nextRun
      analysis_id := anId
      activity_id := aid
      run_number := runNumber
      model_completion_time := e.modelCompletionTime
      model_completion_timestamp := e.modelCompletionTime
      earth_arrival_time := e.estimatedShockArrivalTime
      earth_arrival_timestamp := e.estimatedShockArrivalTime
      impact_duration := e.estimatedDuration
      rmin_earth_radii := e.rmin_re
      kp_90 := e.kp_90
      kp_135 := e.kp_135
      kp_180 := e.kp_180
      created_at := now }
  let db1 : CmeDB :=
    { db with
        runs := db.runs.filter (fun r =>
            ! (r.analysis_id = anId ∧ r.run_number = runNumber)) ++ [row]
        nextRun := db.nextRun + 1 }
  e.impactList.foldl (fun d im => storeImpactM now row.id anId aid im d) db1

/-- `_store_analysis`: `INSERT OR REPLACE INTO cme_analyses` under
`UNIQUE(activity_id, analysis_id, analysis_type)` (the replacing row gets a
fresh autoincrement rowid), then the `enlilList` model runs numbered from
1, keyed by the fresh rowid. -/
def storeAnalysisM (now : ℤ) (cmeId : Nat) (aid : String) (a : AnalysisP)
    (db : CmeDB) : CmeDB :=
  let anKey := analysisKey aid a.featureCode a.time21_5
  let row : AnalysisRow :=
    { id := db.nextAnalysis
      cme_id := cmeId
      activity_id := aid
      analysis_id := anKey
      analysis_type := a.featureCode
      measurement_time := a.time21_5
      measurement_timestamp := a.time21_5
      technique := a.measurementTechnique
      data_level := a.levelOfData
      speed := a.speed
      ctype := a.ctype
      direction_lon := a.longitude
      direction_lat := a.latitude
      half_angle := a.halfAngle
      time_at_21_5_rs := a.time21_5
      image_type := a.imageType
      created_at := now }
  let db1 : CmeDB :=
    { db with
        analyses := db.analyses.filter (fun r =>
            ! (r.activity_id = aid ∧ r.analysis_id = anKey ∧
               r.analysis_type = a.featureCode)) ++ [row]
        nextAnalysis := db.nextAnalysis + 1 }
  (a.enlilList.enum).foldl
    (fun d ie => storeModelRunM now row.id aid (ie.1 + 1) ie.2 d) db1

/-- `store_cme`: `INSERT OR REPLACE INTO cmes_enhanced` under
`UNIQUE(activity_id)`, then the payload's analyses (which cascade to model
runs and spacecraft impacts); returns the new CME rowid (`lastrowid`). -/
def store_cme (now : ℤ) (p : CmeP) (db : CmeDB) : CmeDB × Nat :=
  let cmeId := db.nextCme
  let row : CmeRow :=
    { id := cmeId
      activity_id := p.activityID
      start_time := p.startTime
      start_timestamp := p.startTime
      source_location := p.sourceLocation
      source_region :=
        match p.activeRegionNum with
        | none => none
        | some n => if n ≠ 0 then some (toString n) else none
      associated_flare :=
        (p.linkedEvents.filter (fun e => hasInfixChars "FLR".data e.data)).head?
      note := p.note
      instruments := String.intercalate ", " p.instruments
      donki_url := p.link
      created_at := now
      updated_at := now }
  let db1 : CmeDB :=
    { db with
        cmes := db.cmes.filter (fun r => r.activity_id ≠ p.activityID) ++ [row]
        nextCme := cmeId + 1 }
  (p.cmeAnalyses.foldl (fun d a => storeAnalysisM now cmeId p.activityID a d) db1,
    cmeId)

/-- Does a model run's predicted Earth arrival fall inside `[lo, hi]`?  A
`NULL` timestamp fails the SQL comparison. -/
def runQualifies (lo hi : ℤ) (m : ModelRunRow) : Bool :=
  match m.earth_arrival_timestamp with
  | some t => lo ≤ t ∧ t ≤ hi
  | none => false

/-- The `JOIN`-with-`DISTINCT` condition of
`get_cmes_with_arrivals_in_window`: some analysis of the CME has some model
run with an arrival in the expanded window. -/
def cmeHasArrivalIn (db : CmeDB) (lo hi : ℤ) (c : CmeRow) : Bool :=
  db.analyses.any (fun a =>
    a.cme_id = c.id &&
      db.runs.any (fun m => m.analysis_id = a.id && runQualifies lo hi m))

/-- A model run with its spacecraft impacts, as assembled by
`_get_analyses_for_cme`. -/
structure RunTree where
  run : ModelRunRow
  spacecraft_impacts : List ImpactRow
  deriving Repr, DecidableEq

/-- An analysis with its model runs. -/
structure AnalysisTree where
  analysis : AnalysisRow
  model_runs : List RunTree
  deriving Repr, DecidableEq

/-- `_get_analyses_for_cme`: every analysis row of the CME, each with every
model run keyed by the analysis rowid, each with every spacecraft impact
keyed by the run rowid (the `ORDER BY`s are immaterial to the membership
statements proved below). -/
def getAnalysesForCme (db : CmeDB) (cmeId : Nat) : List AnalysisTree :=
  (db.analyses.filter (fun a => a.cme_id = cmeId)).map (fun a =>
    { analysis := a
      model_runs := (db.runs.filter (fun m => m.analysis_id = a.id)).map (fun m =>
        { run := m
          spacecraft_impacts := db.impacts.filter (fun im => im.model_run_id = m.id) }) })

/-- `get_cmes_with_arrivals_in_window`: expand `[t0, t1]` by
`uncertainty_hours` hours on both sides, keep the CMEs having at least one
model run with an Earth-arrival timestamp in the expanded window, and
attach each one's complete analysis tree. -/
def get_cmes_with_arrivals_in_window (db : CmeDB) (t0 t1 : ℤ)
    (uncertaintyHours : ℤ) : List (CmeRow × List AnalysisTree) :=
  let lo := t0 - 3600 * uncertaintyHours
  let hi := t1 + 3600 * uncertaintyHours
  (db.cmes.filter (cmeHasArrivalIn db lo hi)).map
    (fun c => (c, getAnalysesForCme db c.id))

end CmeTracker

namespace FlareTracker

/-- Concrete NOAA candidate: an M1.0 at epoch 1000 (used for the
magnitude-gate instances). -/
def exMagF : Candidate :=
  { event_date := 0
    event_time := none
    event_timestamp := some 1000
    flare_class := "M1.0"
    region := none
    location := none
    peak_time := none
    end_time := none
    raw_text := "" }

/-- Concrete stored row: an M5.0 at the same instant — same class letter,
magnitude 4.0 away. -/
def exMagR : FlareRow :=
  { id := 0
    event_date := 0
    event_time := none
    event_timestamp := some 1000
    flare_class := "M5.0"
    region := none
    location := none
    peak_time := none
    end_time := none
    scraped_at := 0
    source := "LMSAL"
    raw_text := "" }

/-- Concrete LMSAL candidate carrying every field (equal-precision merge
instances). -/
def exEqF : Candidate :=
  { event_date := 0
    event_time := some "01:00"
    event_timestamp := some 3600
    flare_class := "M1.0"
    region := some "1111"
    location := some "N10E10"
    peak_time := some 3700
    end_time := some "01:10"
    raw_text := "" }

/-- Concrete stored LMSAL row one minute earlier, with every field present
and a different region. -/
def exEqR : FlareRow :=
  { id := 1
    event_date := 0
    event_time := some "00:59"
    event_timestamp := some 3540
    flare_class := "M1.1"
    region := some "2222"
    location := some "N10E10"
    peak_time := some 3660
    end_time := some "01:09"
    scraped_at := 0
    source := "LMSAL"
    raw_text := "" }

/-- Concrete NOAA candidate whose time sits 50 s from `exNullR`'s stored
peak (timestamp-unknown-record instances). -/
def exNullF : Candidate :=
  { event_date := 0
    event_time := none
    event_timestamp := some 3600
    flare_class := "M1.0"
    region := none
    location := some "N10E10"
    peak_time := none
    end_time := none
    raw_text := "" }

/-- Concrete stored LMSAL row with a `NULL` start timestamp, a peak time
and a location. -/
def exNullR : FlareRow :=
  { id := 2
    event_date := 0
    event_time := none
    event_timestamp := none
    flare_class := "M1.0"
    region := none
    location := some "N10E10"
    peak_time := some 3650
    end_time := none
    scraped_at := 0
    source := "LMSAL"
    raw_text := "" }

/-- Concrete vague candidate with only a region, for the merge-fill
instances. -/
def exFillF : Candidate :=
  { event_date := 0
    event_time := none
    event_timestamp := some 3650
    flare_class := "M1.0"
    region := some "4274"
    location := none
    peak_time := none
    end_time := none
    raw_text := "" }

/-- Concrete stored precise row lacking a region. -/
def exFillR : FlareRow :=
  { id := 3
    event_date := 0
    event_time := some "01:00"
    event_timestamp := some 3600
    flare_class := "M1.1"
    region := none
    location := some "N10E10"
    peak_time := some 3700
    end_time := some "01:10"
    scraped_at := 0
    source := "LMSAL"
    raw_text := "" }

/-- Concrete row with a `NULL` timestamp (retention / 24-hour instances). -/
def exImmortalR : FlareRow :=
  { id := 4
    event_date := -400
    event_time := none
    event_timestamp := none
    flare_class := "C3.0"
    region := some "4000"
    location := none
    peak_time := none
    end_time := none
    scraped_at := 0
    source := "NOAA"
    raw_text := "old" }

end FlareTracker

namespace CmeTracker

/-- Concrete spacecraft impact of the example payload. -/
def exImpact : ImpactP := { location := "STEREO A", arrivalTime := some 170000 }

/-- Concrete ENLIL model run with an Earth-arrival prediction at epoch
180000. -/
def exEnlil : EnlilP :=
  { modelCompletionTime := some 10
    estimatedShockArrivalTime := some 180000
    estimatedDuration := none
    rmin_re := none
    kp_90 := some 4
    kp_135 := none
    kp_180 := none
    impactList := [exImpact] }

/-- Concrete Leading-Edge analysis with one model run. -/
def exAnalysis : AnalysisP :=
  { featureCode := "LE"
    time21_5 := some 100
    measurementTechnique := "SWPC_ANNEX"
    levelOfData := 0
    speed := some ⟨700, 1⟩
    ctype := "C"
    longitude := none
    latitude := none
    halfAngle := none
    imageType := ""
    enlilList := [exEnlil] }

/-- Concrete DONKI payload with one analysis / one run / one impact. -/
def exCmeP : CmeP :=
  { activityID := "2025-10-01T10:00:00-CME-001"
    startTime := 0
    sourceLocation := "N10E10"
    activeRegionNum := some 4274
    instruments := ["SOHO: LASCO/C2"]
    note := ""
    link := ""
    linkedEvents := ["2025-10-01T09:30:00-FLR-001"]
    cmeAnalyses := [exAnalysis] }

/-- The database after one upsert of the example payload. -/
def exDB1 : CmeDB := (store_cme 0 exCmeP emptyDB).1

/-- The `cmes_enhanced` row the first upsert of `exCmeP` creates. -/
def exCmeRow : CmeRow :=
  { id := 0
    activity_id := "2025-10-01T10:00:00-CME-001"
    start_time := 0
    start_timestamp := 0
    source_location := "N10E10"
    source_region := some "4274"
    associated_flare := some "2025-10-01T09:30:00-FLR-001"
    note := ""
    instruments := "SOHO: LASCO/C2"
    donki_url := ""
    created_at := 0
    updated_at := 0 }

/-- The database after upserting the identical payload a second time. -/
def exDB2 : CmeDB := (store_cme 1 exCmeP exDB1).1

end CmeTracker

namespace Frac

theorem leB_iff_val {a b : Frac} (ha : 0 < a.den) (hb : 0 < b.den) :
    a.leB b = true ↔ a.val ≤ b.val := by
  have ha2 : (0 : ℚ) < (a.den : ℚ) := by exact_mod_cast ha
  have hb2 : (0 : ℚ) < (b.den : ℚ) := by exact_mod_cast hb
  rw [leB, val, val, div_le_div_iff₀ ha2 hb2, decide_eq_true_eq]
  constructor
  · intro h; exact_mod_cast h
  · intro h; exact_mod_cast h

theorem ltB_iff_val {a b : Frac} (ha : 0 < a.den) (hb : 0 < b.den) :
    a.ltB b = true ↔ a.val < b.val := by
  have ha2 : (0 : ℚ) < (a.den : ℚ) := by exact_mod_cast ha
  have hb2 : (0 : ℚ) < (b.den : ℚ) := by exact_mod_cast hb
  rw [ltB, val, val, div_lt_div_iff₀ ha2 hb2, decide_eq_true_eq]
  constructor
  · intro h; exact_mod_cast h
  · intro h; exact_mod_cast h

theorem val_add {a b : Frac} (ha : a.den ≠ 0) (hb : b.den ≠ 0) :
    (a.add b).val = a.val + b.val := by
  have ha2 : (a.den : ℚ) ≠ 0 := by exact_mod_cast ha
  have hb2 : (b.den : ℚ) ≠ 0 := by exact_mod_cast hb
  rw [add, val, val, val]
  push_cast
  field_simp

theorem val_sub {a b : Frac} (ha : a.den ≠ 0) (hb : b.den ≠ 0) :
    (a.sub b).val = a.val - b.val := by
  have ha2 : (a.den : ℚ) ≠ 0 := by exact_mod_cast ha
  have hb2 : (b.den : ℚ) ≠ 0 := by exact_mod_cast hb
  rw [sub, val, val, val]
  push_cast
  field_simp
  try ring

theorem add_den {a b : Frac} : (a.add b).den = a.den * b.den := rfl

theorem sub_den {a b : Frac} : (a.sub b).den = a.den * b.den := rfl

end Frac

namespace FlareTracker

theorem decFrac_den_pos (ip fp : List Char) : 0 < (decFrac ip fp).den := by
  simp only [decFrac]
  positivity

theorem parseClassMag_den_pos {s : String} {L : Char} {m : Frac}
    (h : parseClassMag s = some (L, m)) : 0 < m.den := by
  unfold parseClassMag at h
  split at h
  · exact absurd h (by simp)
  · split_ifs at h
    all_goals
      first
        | exact absurd h (by simp)
        | (split at h <;>
            · simp only [Option.some.injEq, Prod.mk.injEq] at h
              rw [← h.2]
              exact decFrac_den_pos _ _)

/-- C6 helper: unfolded membership in the kept rows. -/
theorem mem_cleanup_iff (now hours : ℤ) (rows : List FlareRow) (r : FlareRow) :
    r ∈ (cleanup_old_flares now hours rows).1 ↔
      r ∈ rows ∧ (r.event_timestamp = none ∨
        ∃ t, r.event_timestamp = some t ∧ now - 3600 * hours ≤ t) := by
  simp only [cleanup_old_flares, List.mem_filter]
  constructor
  · rintro ⟨hmem, hcond⟩
    refine ⟨hmem, ?_⟩
    rcases ht : r.event_timestamp with _ | t
    · exact Or.inl rfl
    · rw [ht] at hcond
      simp only [decide_eq_true_eq, not_lt] at hcond
      exact Or.inr ⟨t, rfl, hcond⟩
  · rintro ⟨hmem, hcond⟩
    refine ⟨hmem, ?_⟩
    rcases hcond with hnone | ⟨t, ht, hle⟩
    · rw [hnone]
    · rw [ht]
      simp only [decide_eq_true_eq, not_lt]
      exact hle

/-- C6: for every `hours` argument, `cleanup_old_flares` keeps a row iff
its `event_timestamp` is `NULL` or at least `now - 3600*hours`, and the
rows it removes are exactly those with a non-`NULL` timestamp strictly
older than the cutoff; surviving rows are returned unchanged (the delete
never mutates them). -/
theorem cleanup_deletes_exactly_old_timestamped (now hours : ℤ)
    (rows : List FlareRow) (r : FlareRow) :
    (r ∈ (cleanup_old_flares now hours rows).1 ↔
      r ∈ rows ∧ (r.event_timestamp = none ∨
        ∃ t, r.event_timestamp = some t ∧ now - 3600 * hours ≤ t)) ∧
    ((r ∈ rows ∧ r ∉ (cleanup_old_flares now hours rows).1) ↔
      r ∈ rows ∧ ∃ t, r.event_timestamp = some t ∧ t < now - 3600 * hours) := by
  refine ⟨mem_cleanup_iff now hours rows r, ?_⟩
  rw [mem_cleanup_iff now hours rows r]
  constructor
  · rintro ⟨hmem, hnot⟩
    refine ⟨hmem, ?_⟩
    rcases ht : r.event_timestamp with _ | t
    · exact absurd ⟨hmem, Or.inl ht⟩ hnot
    · refine ⟨t, rfl, ?_⟩
      by_contra hge
      push_neg at hge
      exact hnot ⟨hmem, Or.inr ⟨t, ht, hge⟩⟩
  · rintro ⟨hmem, t, ht, hlt⟩
    refine ⟨hmem, ?_⟩
    rintro ⟨-, hnone | ⟨t2, ht2, hle⟩⟩
    · rw [hnone] at ht; exact absurd ht (by simp)
    · rw [ht2] at ht
      simp only [Option.some.injEq] at ht
      omega

/-- C10 helper: membership in the last-24h view list. -/
theorem mem_last24h_of (now : ℤ) (rows : List FlareRow) (r : FlareRow)
    (hmem : r ∈ rows)
    (hcond : r.event_timestamp = none ∨
      ∃ t, r.event_timestamp = some t ∧ now - 86400 ≤ t) :
    viewOf r ∈ get_flares_last_24h now rows := by
  simp only [get_flares_last_24h, List.mem_map]
  refine ⟨r, List.mem_filter.mpr ⟨hmem, ?_⟩, rfl⟩
  rcases hcond with hnone | ⟨t, ht, hle⟩
  · rw [hnone]
  · rw [ht]
    simpa using hle

/-- C10: the 24-hour query returns the projection of every stored row
whose `event_timestamp` is `NULL` — regardless of its `event_date` or age
— besides the rows whose timestamp is within the last 24 hours, and
nothing else; the summary's `flares_list` is exactly that list and the
total / per-letter class counts are computed over it, so immortal
`NULL`-timestamp rows appear in every summary. -/
theorem null_timestamp_rows_immortal_in_24h (now : ℤ) (rows : List FlareRow) :
    (∀ r ∈ rows,
      (r.event_timestamp = none ∨
        ∃ t, r.event_timestamp = some t ∧ now - 86400 ≤ t) →
      viewOf r ∈ get_flares_last_24h now rows) ∧
    (∀ v ∈ get_flares_last_24h now rows, ∃ r ∈ rows, viewOf r = v ∧
      (r.event_timestamp = none ∨
        ∃ t, r.event_timestamp = some t ∧ now - 86400 ≤ t)) ∧
    (get_flares_summary now rows).flares_list = get_flares_last_24h now rows ∧
    (get_flares_summary now rows).total_count =
      (get_flares_last_24h now rows).length ∧
    (get_flares_summary now rows).x_class_count =
      ((get_flares_last_24h now rows).filter
        (fun f => startsWithChar 'X' f.flare_class)).length ∧
    (get_flares_summary now rows).m_class_count =
      ((get_flares_last_24h now rows).filter
        (fun f => startsWithChar 'M' f.flare_class)).length ∧
    (get_flares_summary now rows).c_class_count =
      ((get_flares_last_24h now rows).filter
        (fun f => startsWithChar 'C' f.flare_class)).length := by
  refine ⟨fun r hmem hcond => mem_last24h_of now rows r hmem hcond, ?_, ?_⟩
  · intro v hv
    simp only [get_flares_last_24h, List.mem_map] at hv
    obtain ⟨r, hr, hview⟩ := hv
    rw [List.mem_filter] at hr
    refine ⟨r, hr.1, hview, ?_⟩
    rcases ht : r.event_timestamp with _ | t
    · exact Or.inl rfl
    · rw [ht] at hr
      have := hr.2
      simp only [decide_eq_true_eq] at this
      exact Or.inr ⟨t, rfl, this⟩
  · unfold get_flares_summary
    rcases hfl : get_flares_last_24h now rows with _ | ⟨v, vs⟩ <;> simp

/-- C10 witness at a concrete immortal row. -/
theorem null_timestamp_rows_immortal_in_24h_witness :
    viewOf exImmortalR ∈ get_flares_last_24h 1000000 [exImmortalR] :=
  (null_timestamp_rows_immortal_in_24h 1000000 [exImmortalR]).1 exImmortalR
    (by decide) (Or.inl (by decide))

end FlareTracker

namespace FlareTracker

/-- Shared helper: when no same-date row matches, `store_flares` takes the
`INSERT` branch and appends the candidate's row verbatim. -/
theorem storeOne_inserts_of_no_match (src : String) (sc : ℤ) (f : Candidate)
    (db : FlareDB)
    (h : ∀ r ∈ dateCandidates f db.rows, rowMatch src f r = none) :
    (storeOne src sc f db).2 = StoreOutcome.inserted ∧
    (storeOne src sc f db).1.rows = db.rows ++ [insertRow src sc f db.nextId] := by
  have hfind : findExisting src f (dateCandidates f db.rows) = none := by
    apply List.find?_eq_none.mpr
    intro r hr
    rw [h r hr]
    simp
  unfold storeOne
  rw [hfind]
  exact ⟨rfl, rfl⟩

/-- C2: an incoming candidate with a parseable class letter and magnitude
is never merged into an existing record of the same letter whose magnitude
differs by more than `0.2` — the magnitude gate fails before any of the
five time/location predicates can fire — and when no same-date record
matches at all the candidate is inserted as a new row. -/
theorem magnitude_gate_never_merges (src : String) (f : Candidate)
    (r : FlareRow) (L : Char) (m m2 : Frac)
    (hf : parseClassMag f.flare_class = some (L, m))
    (hr : parseClassMag r.flare_class = some (L, m2))
    (hgap : 1 / 5 < |m2.val - m.val|) :
    rowMatch src f r = none ∧
    (∀ cands : List FlareRow, findExisting src f cands ≠ some r) ∧
    (∀ (db : FlareDB) (sc : ℤ),
      (∀ r2 ∈ dateCandidates f db.rows, rowMatch src f r2 = none) →
      (storeOne src sc f db).2 = StoreOutcome.inserted) := by
  have hmden : 0 < m.den := parseClassMag_den_pos hf
  have hm2den : 0 < m2.den := parseClassMag_den_pos hr
  have htolden : (0 : ℤ) < tol.den := by norm_num [tol]
  have hsubden : 0 < (m.sub tol).den := by
    rw [Frac.sub_den]; exact mul_pos hmden htolden
  have haddden : 0 < (m.add tol).den := by
    rw [Frac.add_den]; exact mul_pos hmden htolden
  have htolval : tol.val = 1 / 5 := by norm_num [tol, Frac.val]
  have hsubval : (m.sub tol).val = m.val - 1 / 5 := by
    rw [Frac.val_sub hmden.ne' htolden.ne', htolval]
  have haddval : (m.add tol).val = m.val + 1 / 5 := by
    rw [Frac.val_add hmden.ne' htolden.ne', htolval]
  have hband : (decide (L = L) && Frac.leB (m.sub tol) m2 &&
      Frac.leB m2 (m.add tol)) = false := by
    rcases lt_abs.mp hgap with hgt | hgt
    · have hnle : ¬ (Frac.leB m2 (m.add tol) = true) := by
        rw [Frac.leB_iff_val hm2den haddden, haddval]
        intro hcon
        linarith
      cases hb : Frac.leB m2 (m.add tol)
      · simp [hb]
      · exact absurd hb hnle
    · have hnle : ¬ (Frac.leB (m.sub tol) m2 = true) := by
        rw [Frac.leB_iff_val hsubden hm2den, hsubval]
        intro hcon
        linarith
      cases hb : Frac.leB (m.sub tol) m2
      · simp [hb]
      · exact absurd hb hnle
  have helig : magEligible f r = false := by
    simp only [magEligible, hf, hr]
    simpa using hband
  have hnone : rowMatch src f r = none := by
    unfold rowMatch
    rw [helig]
    simp
  refine ⟨hnone, ?_, fun db sc hno =>
    (storeOne_inserts_of_no_match src sc f db hno).1⟩
  intro cands hfind
  have hp := List.find?_some hfind
  rw [hnone] at hp
  simp at hp

/-- C2 witness: an M1.0 and an M5.0 at the identical timestamp are not
merged, the M1.0 stays un-matched. -/
theorem magnitude_gate_never_merges_witness :
    parseClassMag exMagF.flare_class = some ('M', ⟨10, 10⟩) ∧
    parseClassMag exMagR.flare_class = some ('M', ⟨50, 10⟩) ∧
    (1 / 5 : ℚ) < |Frac.val ⟨50, 10⟩ - Frac.val ⟨10, 10⟩| ∧
    rowMatch "LMSAL" exMagF exMagR = none :=
  ⟨by decide, by decide, by norm_num [Frac.val],
    (magnitude_gate_never_merges "LMSAL" exMagF exMagR 'M' ⟨10, 10⟩ ⟨50, 10⟩
      (by decide) (by decide) (by norm_num [Frac.val])).1⟩

end FlareTracker

namespace FlareTracker

/-- C3: for a magnitude-eligible existing record the five match predicates
are evaluated in the fixed source order 1–5 and the first satisfied one is
the match outcome (a later predicate can fire only when every earlier one
failed); when no same-date record matches at all the candidate is inserted
as a new row. -/
theorem first_predicate_determines_match (src : String) (f : Candidate)
    (r : FlareRow) (helig : magEligible f r = true) :
    (rowMatch src f r = some 0 ↔ pred1 f r = true) ∧
    (rowMatch src f r = some 1 ↔
      pred1 f r = false ∧ pred2 src f r = true) ∧
    (rowMatch src f r = some 2 ↔
      pred1 f r = false ∧ pred2 src f r = false ∧ pred3 src f r = true) ∧
    (rowMatch src f r = some 3 ↔
      pred1 f r = false ∧ pred2 src f r = false ∧ pred3 src f r = false ∧
        pred4 src f r = true) ∧
    (rowMatch src f r = some 4 ↔
      pred1 f r = false ∧ pred2 src f r = false ∧ pred3 src f r = false ∧
        pred4 src f r = false ∧ pred5 f r = true) ∧
    (rowMatch src f r = none ↔
      pred1 f r = false ∧ pred2 src f r = false ∧ pred3 src f r = false ∧
        pred4 src f r = false ∧ pred5 f r = false) ∧
    (∀ (db : FlareDB) (sc : ℤ),
      (∀ r2 ∈ dateCandidates f db.rows, rowMatch src f r2 = none) →
      (storeOne src sc f db).2 = StoreOutcome.inserted ∧
      (storeOne src sc f db).1.rows =
        db.rows ++ [insertRow src sc f db.nextId]) := by
  refine ⟨?_, ?_, ?_, ?_, ?_, ?_,
    fun db sc h => storeOne_inserts_of_no_match src sc f db h⟩ <;>
  · unfold rowMatch
    rw [helig]
    cases h1 : pred1 f r <;> cases h2 : pred2 src f r <;>
      cases h3 : pred3 src f r <;> cases h4 : pred4 src f r <;>
      cases h5 : pred5 f r <;> simp

/-- C3 witness: a pair satisfying both predicate 1 and predicate 5 is
matched with reason predicate 1 (first match wins). -/
theorem first_predicate_determines_match_witness :
    magEligible exEqF exEqR = true ∧ pred1 exEqF exEqR = true ∧
    pred5 exEqF exEqR = true ∧ rowMatch "LMSAL" exEqF exEqR = some 0 :=
  ⟨by decide, by decide, by decide,
    (first_predicate_determines_match "LMSAL" exEqF exEqR (by decide)).1.mpr
      (by decide)⟩

end FlareTracker

namespace FlareTracker

/-- C4: when a vague (NOAA) candidate merges into a precise (LMSAL) row,
`prefer_incoming` is off, so every field the row already has — class,
source tag, region, location, start time (and its timestamp), peak and end
time — keeps its stored value, and incoming values are written only into
fields the row lacks. -/
theorem vague_never_overwrites_precise (sc : ℤ) (f : Candidate)
    (r : FlareRow) (_hex : r.source = "LMSAL") :
    (mergeRow "NOAA" sc f r).flare_class = r.flare_class ∧
    (mergeRow "NOAA" sc f r).source = r.source ∧
    (truthyS r.region = true →
      (mergeRow "NOAA" sc f r).region = r.region) ∧
    (truthyS r.region = false → truthyS f.region = true →
      (mergeRow "NOAA" sc f r).region = f.region) ∧
    (truthyS r.location = true →
      (mergeRow "NOAA" sc f r).location = r.location) ∧
    (truthyS r.location = false → truthyS f.location = true →
      (mergeRow "NOAA" sc f r).location = f.location) ∧
    (truthyS r.event_time = true →
      (mergeRow "NOAA" sc f r).event_time = r.event_time ∧
      (mergeRow "NOAA" sc f r).event_timestamp = r.event_timestamp) ∧
    (truthyS r.event_time = false → truthyS f.event_time = true →
      (mergeRow "NOAA" sc f r).event_time = f.event_time) ∧
    (r.peak_time.isSome = true →
      (mergeRow "NOAA" sc f r).peak_time = r.peak_time) ∧
    (r.peak_time = none → f.peak_time.isSome = true →
      (mergeRow "NOAA" sc f r).peak_time = f.peak_time) ∧
    (truthyS r.end_time = true →
      (mergeRow "NOAA" sc f r).end_time = r.end_time) ∧
    (truthyS r.end_time = false → truthyS f.end_time = true →
      (mergeRow "NOAA" sc f r).end_time = f.end_time) := by
  have hd : decide (("NOAA" : String) = "LMSAL") = false := by decide
  refine ⟨?_, ?_, ?_, ?_, ?_, ?_, ?_, ?_, ?_, ?_, ?_, ?_⟩
  · simp [mergeRow, hd]
  · simp [mergeRow, hd]
  · intro h1; simp [mergeRow, hd, h1]
  · intro h1 h2; simp [mergeRow, hd, h1, h2]
  · intro h1; simp [mergeRow, hd, h1]
  · intro h1 h2; simp [mergeRow, hd, h1, h2]
  · intro h1; constructor <;> simp [mergeRow, hd, h1]
  · intro h1 h2; simp [mergeRow, hd, h1, h2]
  · intro h1
    obtain ⟨v, hv⟩ := Option.isSome_iff_exists.mp h1
    simp [mergeRow, hd, hv]
  · intro h1 h2; simp [mergeRow, hd, h1, h2]
  · intro h1; simp [mergeRow, hd, h1]
  · intro h1 h2; simp [mergeRow, hd, h1, h2]

/-- C4 witness: a NOAA candidate fills the missing region of an LMSAL row
but does not disturb its stored location. -/
theorem vague_never_overwrites_precise_witness :
    exFillR.source = "LMSAL" ∧ truthyS exFillR.region = false ∧
    truthyS exFillF.region = true ∧
    (mergeRow "NOAA" 50 exFillF exFillR).region = exFillF.region ∧
    (mergeRow "NOAA" 50 exFillF exFillR).location = exFillR.location :=
  ⟨by decide, by decide, by decide,
    (vague_never_overwrites_precise 50 exFillF exFillR
      (by decide)).2.2.2.1 (by decide) (by decide),
    (vague_never_overwrites_precise 50 exFillF exFillR
      (by decide)).2.2.2.2.1 (by decide)⟩

/-- C7 counterexample: two LMSAL (equal-precision) records that merge under
predicate 1, with a region present on both sides but different — the code
keeps the *existing* value "2222", not the more recently observed "1111";
in fact no field is updated at all (the `should_update` flag never fires
without `prefer_incoming` on both-present fields) and the store treats the
newer observation as an exact duplicate. -/
theorem equal_precision_keeps_existing_counterexample :
    exEqR.source = "LMSAL" ∧ exEqR.scraped_at = 0 ∧
    rowMatch "LMSAL" exEqF exEqR = some 0 ∧
    exEqF.region = some "1111" ∧ exEqR.region = some "2222" ∧
    (mergeRow "LMSAL" 100 exEqF exEqR).region = some "2222" ∧
    (mergeRow "LMSAL" 100 exEqF exEqR).scraped_at = 0 ∧
    (storeOne "LMSAL" 100 exEqF { rows := [exEqR], nextId := 5 }).1.rows =
      [exEqR] ∧
    (storeOne "LMSAL" 100 exEqF { rows := [exEqR], nextId := 5 }).2 =
      StoreOutcome.duplicate 1 := by decide

/-- C7 amended: when a matched candidate and the stored row have the same
precision level (both NOAA or both LMSAL), a field present on both sides
keeps the *existing* record's value — the more recently observed value is
discarded — and incoming values are used only for fields the row lacks. -/
theorem equal_precision_merge_keeps_existing (src : String) (sc : ℤ)
    (f : Candidate) (r : FlareRow)
    (h : (src = "NOAA" ∧ r.source = "NOAA") ∨
      (src = "LMSAL" ∧ r.source = "LMSAL")) :
    (mergeRow src sc f r).flare_class = r.flare_class ∧
    (mergeRow src sc f r).source = r.source ∧
    (truthyS f.region = true → truthyS r.region = true →
      (mergeRow src sc f r).region = r.region) ∧
    (truthyS r.region = false → truthyS f.region = true →
      (mergeRow src sc f r).region = f.region) ∧
    (truthyS f.location = true → truthyS r.location = true →
      (mergeRow src sc f r).location = r.location) ∧
    (truthyS f.event_time = true → truthyS r.event_time = true →
      (mergeRow src sc f r).event_time = r.event_time ∧
      (mergeRow src sc f r).event_timestamp = r.event_timestamp) ∧
    (f.peak_time.isSome = true → r.peak_time.isSome = true →
      (mergeRow src sc f r).peak_time = r.peak_time) ∧
    (truthyS f.end_time = true → truthyS r.end_time = true →
      (mergeRow src sc f r).end_time = r.end_time) := by
  have hpref : (decide (src = "LMSAL") && decide (r.source = "NOAA")) = false := by
    rcases h with ⟨h1, h2⟩ | ⟨h1, h2⟩ <;> simp [h1, h2]
  refine ⟨?_, ?_, ?_, ?_, ?_, ?_, ?_, ?_⟩
  · simp [mergeRow, hpref]
  · simp [mergeRow, hpref]
  · intro h1 h2; simp [mergeRow, hpref, h2]
  · intro h1 h2; simp [mergeRow, hpref, h1, h2]
  · intro h1 h2; simp [mergeRow, hpref, h2]
  · intro h1 h2; constructor <;> simp [mergeRow, hpref, h2]
  · intro h1 h2
    obtain ⟨v, hv⟩ := Option.isSome_iff_exists.mp h2
    simp [mergeRow, hpref, hv]
  · intro h1 h2; simp [mergeRow, hpref, h2]

/-- C7 amended witness at the concrete LMSAL/LMSAL pair. -/
theorem equal_precision_merge_keeps_existing_witness :
    truthyS exEqF.region = true ∧ truthyS exEqR.region = true ∧
    (mergeRow "LMSAL" 100 exEqF exEqR).region = exEqR.region :=
  ⟨by decide, by decide,
    (equal_precision_merge_keeps_existing "LMSAL" 100 exEqF exEqR
      (Or.inr ⟨rfl, by decide⟩)).2.2.1 (by decide) (by decide)⟩

/-- C8 counterexample: a stored row with a `NULL` start timestamp *is*
matched by predicate 2 (incoming NOAA time vs its LMSAL peak time), even
though the claim allows only predicate 5; and predicate 5 itself cannot
fire for such a row (it requires both start timestamps) despite the two
records sharing the identical location string. -/
theorem unknown_timestamp_matched_counterexample :
    exNullR.event_timestamp = none ∧
    exNullF.location = exNullR.location ∧
    pred5 exNullF exNullR = false ∧
    pred2 "NOAA" exNullF exNullR = true ∧
    rowMatch "NOAA" exNullF exNullR = some 1 := by decide

/-- C8 amended: a stored row whose start timestamp is unknown is excluded
from predicates 1, 3 and 5 (the location predicate also needs both start
timestamps), and can be matched only via the peak-time predicates 2 or 4 —
otherwise it stays unmatched. -/
theorem unknown_timestamp_row_match_characterisation (src : String)
    (f : Candidate) (r : FlareRow) (h : r.event_timestamp = none) :
    pred1 f r = false ∧ pred3 src f r = false ∧ pred5 f r = false ∧
    rowMatch src f r =
      (if magEligible f r && pred2 src f r then some 1
       else if magEligible f r && pred4 src f r then some 3
       else none) := by
  have h1 : pred1 f r = false := by
    cases hf : f.event_timestamp <;> simp [pred1, h, hf]
  have h3 : pred3 src f r = false := by
    simp [pred3, h, truthyI]
  have h5 : pred5 f r = false := by
    simp [pred5, h, truthyI]
  refine ⟨h1, h3, h5, ?_⟩
  unfold rowMatch
  rw [h1, h3, h5]
  cases he : magEligible f r <;> cases h2 : pred2 src f r <;>
    cases h4 : pred4 src f r <;> simp

/-- C8 amended witness at the concrete `NULL`-timestamp row. -/
theorem unknown_timestamp_row_match_witness :
    exNullR.event_timestamp = none ∧ pred1 exNullF exNullR = false ∧
    pred3 "LMSAL" exNullF exNullR = false ∧ pred5 exNullF exNullR = false :=
  ⟨by decide,
    (unknown_timestamp_row_match_characterisation "LMSAL" exNullF exNullR
      (by decide)).1,
    (unknown_timestamp_row_match_characterisation "LMSAL" exNullF exNullR
      (by decide)).2.1,
    (unknown_timestamp_row_match_characterisation "LMSAL" exNullF exNullR
      (by decide)).2.2.1⟩

end FlareTracker
namespace FlareTracker

theorem pyFloat_den_pos {l : List Char} {v : Frac} (h : pyFloat l = some v) :
    0 < v.den := by
  unfold pyFloat at h
  split at h
  · by_cases hip : List.takeWhile Char.isDigit l = []
    · rw [if_pos hip] at h
      exact absurd h (by simp)
    · rw [if_neg hip] at h
      simp only [Option.some.injEq] at h
      rw [← h]
      norm_num
  · rename_i x r2 heq
    by_cases h1 : List.dropWhile Char.isDigit r2 ≠ []
    · rw [if_pos h1] at h
      exact absurd h (by simp)
    · rw [if_neg h1] at h
      by_cases h2 : List.takeWhile Char.isDigit l = [] ∧
          List.takeWhile Char.isDigit r2 = []
      · rw [if_pos h2] at h
        exact absurd h (by simp)
      · rw [if_neg h2] at h
        simp only [Option.some.injEq] at h
        rw [← h]
        exact decFrac_den_pos _ _
  · exact absurd h (by simp)

theorem pyFloat_num_nonneg {l : List Char} {v : Frac} (h : pyFloat l = some v) :
    0 ≤ v.num := by
  unfold pyFloat at h
  split at h
  · by_cases hip : List.takeWhile Char.isDigit l = []
    · rw [if_pos hip] at h
      exact absurd h (by simp)
    · rw [if_neg hip] at h
      simp only [Option.some.injEq] at h
      rw [← h]
      positivity
  · rename_i x r2 heq
    by_cases h1 : List.dropWhile Char.isDigit r2 ≠ []
    · rw [if_pos h1] at h
      exact absurd h (by simp)
    · rw [if_neg h1] at h
      by_cases h2 : List.takeWhile Char.isDigit l = [] ∧
          List.takeWhile Char.isDigit r2 = []
      · rw [if_pos h2] at h
        exact absurd h (by simp)
      · rw [if_neg h2] at h
        simp only [Option.some.injEq] at h
        rw [← h]
        dsimp only [decFrac]
        positivity
  · exact absurd h (by simp)

theorem pyFloat_val_nonneg {l : List Char} {v : Frac} (h : pyFloat l = some v) :
    0 ≤ v.val := by
  have hden := pyFloat_den_pos h
  have hnum := pyFloat_num_nonneg h
  rw [Frac.val]
  have h1 : (0 : ℚ) ≤ (v.num : ℚ) := by exact_mod_cast hnum
  have h2 : (0 : ℚ) ≤ (v.den : ℚ) := by exact_mod_cast hden.le
  positivity

theorem magAfter_den_pos {s : String} {m : Frac}
    (h : magAfterLetter s = some m) : 0 < m.den := by
  unfold magAfterLetter at h
  split_ifs at h
  · simp only [Option.some.injEq] at h
    rw [← h]
    norm_num
  · exact pyFloat_den_pos h

theorem magAfter_val_nonneg {s : String} {m : Frac}
    (h : magAfterLetter s = some m) : 0 ≤ m.val := by
  unfold magAfterLetter at h
  split_ifs at h
  · simp only [Option.some.injEq] at h
    rw [← h]
    norm_num [Frac.val]
  · exact pyFloat_val_nonneg h

theorem add_base_den_pos (K : ℤ) (m : Frac) (h : 0 < m.den) :
    0 < ((⟨K, 1⟩ : Frac).add m).den := by
  rw [Frac.add_den]
  show 0 < 1 * m.den
  omega

theorem flare_strength_den_pos {s : String} {v : Frac}
    (h : flare_strength s = some v) : 0 < v.den := by
  unfold flare_strength at h
  split_ifs at h
  case _ =>
    rw [Option.map_eq_some'] at h
    obtain ⟨m, hm, hv⟩ := h
    rw [← hv]
    exact add_base_den_pos _ _ (magAfter_den_pos hm)
  case _ =>
    rw [Option.map_eq_some'] at h
    obtain ⟨m, hm, hv⟩ := h
    rw [← hv]
    exact add_base_den_pos _ _ (magAfter_den_pos hm)
  case _ =>
    rw [Option.map_eq_some'] at h
    obtain ⟨m, hm, hv⟩ := h
    rw [← hv]
    exact add_base_den_pos _ _ (magAfter_den_pos hm)
  case _ =>
    simp only [Option.some.injEq] at h
    rw [← h]
    norm_num

theorem strengthKey_den_pos (v : FlareView) : 0 < (strengthKey v).den := by
  unfold strengthKey
  cases h : flare_strength v.flare_class
  · simp only [Option.getD_none]
    norm_num
  · simp only [Option.getD_some]
    exact flare_strength_den_pos h

/-- A string starting with `c` does not start with a different `d`. -/
theorem startsWithChar_unique {s : String} {c d : Char}
    (h : startsWithChar c s = true) (hne : d ≠ c) :
    startsWithChar d s = false := by
  cases hd : s.data with
  | nil =>
    unfold startsWithChar at h
    rw [hd] at h
    exact absurd h (by simp)
  | cons a l =>
    unfold startsWithChar at h ⊢
    rw [hd] at h ⊢
    dsimp only at h ⊢
    have h2 : a = c := of_decide_eq_true h
    apply decide_eq_false
    intro had
    exact hne (had.symm.trans h2)

/-- Shape of `flare_strength` on an X/M/C-class string: the base constant
plus the parsed magnitude. -/
theorem flare_strength_shape {s : String} {vs : Frac} {c : Char} {K : ℤ}
    (hcase : (c = 'X' ∧ K = 1000) ∨ (c = 'M' ∧ K = 100) ∨ (c = 'C' ∧ K = 10))
    (hx : startsWithChar c s = true) (hs : flare_strength s = some vs) :
    ∃ m, magAfterLetter s = some m ∧ 0 < m.den ∧ 0 ≤ m.val ∧
      vs.val = (K : ℚ) + m.val := by
  have hKden : ((⟨K, 1⟩ : Frac)).den ≠ 0 := by norm_num
  have hKval : ((⟨K, 1⟩ : Frac)).val = (K : ℚ) := by simp [Frac.val]
  have hmap : (magAfterLetter s).map (Frac.add ⟨K, 1⟩) = some vs := by
    rcases hcase with ⟨hc, hK⟩ | ⟨hc, hK⟩ | ⟨hc, hK⟩ <;> subst hc <;> subst hK
    · rw [← hs]
      unfold flare_strength
      rw [if_pos hx]
    · have h1 : startsWithChar 'X' s = false :=
        startsWithChar_unique hx (by decide)
      rw [← hs]
      unfold flare_strength
      rw [if_neg (by rw [h1]; exact Bool.false_ne_true), if_pos hx]
    · have h1 : startsWithChar 'X' s = false :=
        startsWithChar_unique hx (by decide)
      have h2 : startsWithChar 'M' s = false :=
        startsWithChar_unique hx (by decide)
      rw [← hs]
      unfold flare_strength
      rw [if_neg (by rw [h1]; exact Bool.false_ne_true),
        if_neg (by rw [h2]; exact Bool.false_ne_true), if_pos hx]
  rw [Option.map_eq_some'] at hmap
  obtain ⟨m, hm, hv⟩ := hmap
  have hden := magAfter_den_pos hm
  refine ⟨m, hm, hden, magAfter_val_nonneg hm, ?_⟩
  rw [← hv, Frac.val_add hKden hden.ne', hKval]

/-- `flare_strength` is `some 0` on any class not starting with X, M or
C. -/
theorem flare_strength_other {t : String}
    (h1 : startsWithChar 'X' t = false) (h2 : startsWithChar 'M' t = false)
    (h3 : startsWithChar 'C' t = false) : flare_strength t = some ⟨0, 1⟩ := by
  unfold flare_strength
  rw [if_neg (by rw [h1]; exact Bool.false_ne_true),
    if_neg (by rw [h2]; exact Bool.false_ne_true),
    if_neg (by rw [h3]; exact Bool.false_ne_true)]

/-- The Python `max(..., key=...)` fold result has a maximal key value
(keys compared through `Frac.ltB`, valid because every key has a positive
denominator). -/
theorem pyMaxBy_ge (key : FlareView → Frac)
    (hpos : ∀ v, 0 < (key v).den) :
    ∀ (l : List FlareView) (st : FlareView), pyMaxBy key l = some st →
      ∀ v ∈ l, (key v).val ≤ (key st).val := by
  have hstep : ∀ (x y : FlareView),
      (key x).val ≤ (key (if Frac.ltB (key x) (key y) then y else x)).val ∧
      (key y).val ≤ (key (if Frac.ltB (key x) (key y) then y else x)).val := by
    intro x y
    by_cases hb : Frac.ltB (key x) (key y) = true
    · rw [if_pos hb]
      exact ⟨((Frac.ltB_iff_val (hpos x) (hpos y)).mp hb).le, le_refl _⟩
    · rw [if_neg hb]
      refine ⟨le_refl _, ?_⟩
      have := (Frac.ltB_iff_val (hpos x) (hpos y)).not.mp hb
      exact not_lt.mp this
  have hfold : ∀ (xs : List FlareView) (x : FlareView),
      (key x).val ≤
        (key (xs.foldl (fun acc y =>
          if Frac.ltB (key acc) (key y) then y else acc) x)).val ∧
      ∀ y ∈ xs, (key y).val ≤
        (key (xs.foldl (fun acc y =>
          if Frac.ltB (key acc) (key y) then y else acc) x)).val := by
    intro xs
    induction xs with
    | nil => intro x; exact ⟨le_refl _, by simp⟩
    | cons y ys ih =>
      intro x
      rw [List.foldl_cons]
      refine ⟨le_trans (hstep x y).1 (ih _).1, ?_⟩
      intro z hz
      rcases List.mem_cons.mp hz with rfl | hz2
      · exact le_trans (hstep x z).2 (ih _).1
      · exact (ih _).2 z hz2
  intro l st hmax v hv
  cases l with
  | nil => exact absurd hmax (by simp [pyMaxBy])
  | cons x xs =>
    simp only [pyMaxBy, Option.some.injEq] at hmax
    rcases List.mem_cons.mp hv with rfl | hv2
    · rw [← hmax]; exact (hfold xs v).1
    · rw [← hmax]; exact (hfold xs x).2 v hv2

end FlareTracker

namespace FlareTracker

/-- C9 amended: `flare_strength` ranks X-class as `1000 + magnitude`,
M-class as `100 + magnitude`, C-class as `10 + magnitude`, and *every
other* class letter as a flat `0` that ignores its magnitude; hence an
X-class flare outranks an M-class one whenever the M strength stays below
1000 (magnitude < 900), an M-class outranks a C-class whenever the C
strength stays below 100 (magnitude < 90), a C-class always outranks any
other letter, within X/M/C the order is by magnitude, and
`strongest_flare` carries a maximal strength over the summary's
last-24-hours list. -/
theorem flare_strength_order_amended :
    (∀ s t vs vt, startsWithChar 'X' s = true → startsWithChar 'M' t = true →
      flare_strength s = some vs → flare_strength t = some vt →
      vt.val < 1000 → vt.val < vs.val) ∧
    (∀ s t vs vt, startsWithChar 'M' s = true → startsWithChar 'C' t = true →
      flare_strength s = some vs → flare_strength t = some vt →
      vt.val < 100 → vt.val < vs.val) ∧
    (∀ s t vs vt, startsWithChar 'C' s = true →
      startsWithChar 'X' t = false → startsWithChar 'M' t = false →
      startsWithChar 'C' t = false →
      flare_strength s = some vs → flare_strength t = some vt →
      vt.val < vs.val) ∧
    (∀ t, startsWithChar 'X' t = false → startsWithChar 'M' t = false →
      startsWithChar 'C' t = false → flare_strength t = some ⟨0, 1⟩) ∧
    (∀ (c : Char), c = 'X' ∨ c = 'M' ∨ c = 'C' →
      ∀ s t ms mt vs vt, startsWithChar c s = true →
        startsWithChar c t = true →
        magAfterLetter s = some ms → magAfterLetter t = some mt →
        flare_strength s = some vs → flare_strength t = some vt →
        ms.val < mt.val → vs.val < vt.val) ∧
    (∀ (now : ℤ) (rows : List FlareRow) (st : FlareView),
      (get_flares_summary now rows).strongest_flare = some st →
      ∀ v ∈ (get_flares_summary now rows).flares_list,
        (strengthKey v).val ≤ (strengthKey st).val) := by
  refine ⟨?_, ?_, ?_, fun t h1 h2 h3 => flare_strength_other h1 h2 h3,
    ?_, ?_⟩
  · intro s t vs vt hxs hmt hs ht hlt
    obtain ⟨m, -, -, hm0, hval⟩ :=
      flare_strength_shape (Or.inl ⟨rfl, rfl⟩) hxs hs
    rw [hval]
    push_cast
    linarith
  · intro s t vs vt hms hct hs ht hlt
    obtain ⟨m, -, -, hm0, hval⟩ :=
      flare_strength_shape (Or.inr (Or.inl ⟨rfl, rfl⟩)) hms hs
    rw [hval]
    push_cast
    linarith
  · intro s t vs vt hcs h1 h2 h3 hs ht
    obtain ⟨m, -, -, hm0, hval⟩ :=
      flare_strength_shape (Or.inr (Or.inr ⟨rfl, rfl⟩)) hcs hs
    have hzero : flare_strength t = some ⟨0, 1⟩ := flare_strength_other h1 h2 h3
    rw [hzero] at ht
    simp only [Option.some.injEq] at ht
    have htval : vt.val = 0 := by
      rw [← ht]
      norm_num [Frac.val]
    rw [htval, hval]
    push_cast
    linarith
  · intro c hc s t ms mt vs vt hcs hct hmags hmagt hs ht hlt
    rcases hc with rfl | rfl | rfl
    · obtain ⟨m1, hm1, -, -, hv1⟩ :=
        flare_strength_shape (Or.inl ⟨rfl, rfl⟩) hcs hs
      obtain ⟨m2, hm2, -, -, hv2⟩ :=
        flare_strength_shape (Or.inl ⟨rfl, rfl⟩) hct ht
      rw [hm1] at hmags
      rw [hm2] at hmagt
      simp only [Option.some.injEq] at hmags hmagt
      rw [hv1, hv2, hmags, hmagt]
      push_cast
      linarith
    · obtain ⟨m1, hm1, -, -, hv1⟩ :=
        flare_strength_shape (Or.inr (Or.inl ⟨rfl, rfl⟩)) hcs hs
      obtain ⟨m2, hm2, -, -, hv2⟩ :=
        flare_strength_shape (Or.inr (Or.inl ⟨rfl, rfl⟩)) hct ht
      rw [hm1] at hmags
      rw [hm2] at hmagt
      simp only [Option.some.injEq] at hmags hmagt
      rw [hv1, hv2, hmags, hmagt]
      push_cast
      linarith
    · obtain ⟨m1, hm1, -, -, hv1⟩ :=
        flare_strength_shape (Or.inr (Or.inr ⟨rfl, rfl⟩)) hcs hs
      obtain ⟨m2, hm2, -, -, hv2⟩ :=
        flare_strength_shape (Or.inr (Or.inr ⟨rfl, rfl⟩)) hct ht
      rw [hm1] at hmags
      rw [hm2] at hmagt
      simp only [Option.some.injEq] at hmags hmagt
      rw [hv1, hv2, hmags, hmagt]
      push_cast
      linarith
  · intro now rows st hst v hv
    unfold get_flares_summary at hst hv
    rcases hfl : get_flares_last_24h now rows with _ | ⟨a, l⟩ <;>
      rw [hfl] at hst hv
    · exact absurd hst (by simp)
    · simp only at hst hv
      exact pyMaxBy_ge strengthKey strengthKey_den_pos (a :: l) st hst v hv

/-- C9 counterexample: B5.0 and B1.0 have different parsed magnitudes but
the identical strength 0 (within the letter B the order ignores
magnitude), and M950.0 outranks X1.0 (an M-class above an X-class), so
the total order claimed by the spec does not hold as stated. -/
theorem flare_strength_order_counterexample :
    magAfterLetter "B5.0" = some ⟨50, 10⟩ ∧
    magAfterLetter "B1.0" = some ⟨10, 10⟩ ∧
    flare_strength "B5.0" = flare_strength "B1.0" ∧
    flare_strength "M950.0" = some ⟨10500, 10⟩ ∧
    flare_strength "X1.0" = some ⟨10010, 10⟩ ∧
    Frac.val ⟨10010, 10⟩ < Frac.val ⟨10500, 10⟩ :=
  ⟨by decide, by decide, by decide, by decide, by decide,
    by norm_num [Frac.val]⟩

/-- C9 amended witness: X1.0 outranks M2.0 through the amended order. -/
theorem flare_strength_order_amended_witness :
    flare_strength "X1.0" = some ⟨10010, 10⟩ ∧
    flare_strength "M2.0" = some ⟨1020, 10⟩ ∧
    Frac.val ⟨1020, 10⟩ < Frac.val ⟨10010, 10⟩ :=
  ⟨by decide, by decide,
    flare_strength_order_amended.1 "X1.0" "M2.0" ⟨10010, 10⟩ ⟨1020, 10⟩
      (by decide) (by decide) (by decide) (by decide)
      (by norm_num [Frac.val])⟩

end FlareTracker

namespace CmeTracker

theorem runQualifies_iff (lo hi : ℤ) (m : ModelRunRow) :
    runQualifies lo hi m = true ↔
      ∃ t, m.earth_arrival_timestamp = some t ∧ lo ≤ t ∧ t ≤ hi := by
  unfold runQualifies
  cases ht : m.earth_arrival_timestamp with
  | none => simp
  | some t => simp

theorem cmeHasArrivalIn_iff (db : CmeDB) (lo hi : ℤ) (c : CmeRow) :
    cmeHasArrivalIn db lo hi c = true ↔
      ∃ a ∈ db.analyses, a.cme_id = c.id ∧
        ∃ m ∈ db.runs, m.analysis_id = a.id ∧
          ∃ t, m.earth_arrival_timestamp = some t ∧ lo ≤ t ∧ t ≤ hi := by
  simp only [cmeHasArrivalIn, List.any_eq_true, Bool.and_eq_true,
    decide_eq_true_eq, runQualifies_iff]

/-- C5: a CME is returned by the arrival-window query with window
`[t0, t1]` and uncertainty margin `U` hours iff it has at least one model
run (linked through one of its analyses) whose `earth_arrival_timestamp`
lies in the expanded window `[t0 - 3600U, t1 + 3600U]` — in particular a
CME whose own `start_time` lies in the window but which has no qualifying
model run is excluded, since the condition never consults `start_time` —
and each returned CME carries its entire analysis / model-run /
spacecraft-impact tree, not just the matching run. -/
theorem arrival_window_iff_qualifying_run (db : CmeDB) (t0 t1 U : ℤ)
    (c : CmeRow) (tr : List AnalysisTree) :
    ((c, tr) ∈ get_cmes_with_arrivals_in_window db t0 t1 U ↔
      c ∈ db.cmes ∧ tr = getAnalysesForCme db c.id ∧
      ∃ a ∈ db.analyses, a.cme_id = c.id ∧
        ∃ m ∈ db.runs, m.analysis_id = a.id ∧
          ∃ t, m.earth_arrival_timestamp = some t ∧
            t0 - 3600 * U ≤ t ∧ t ≤ t1 + 3600 * U) ∧
    (∀ a ∈ db.analyses, a.cme_id = c.id →
      ∃ nd ∈ getAnalysesForCme db c.id, nd.analysis = a ∧
        ∀ m ∈ db.runs, m.analysis_id = a.id →
          ∃ rd ∈ nd.model_runs, rd.run = m ∧
            ∀ im ∈ db.impacts, im.model_run_id = m.id →
              im ∈ rd.spacecraft_impacts) := by
  refine ⟨?_, ?_⟩
  · unfold get_cmes_with_arrivals_in_window
    constructor
    · intro hmem
      rw [List.mem_map] at hmem
      obtain ⟨c2, hc2, heq⟩ := hmem
      rw [Prod.mk.injEq] at heq
      obtain ⟨rfl, htr⟩ := heq
      rw [List.mem_filter] at hc2
      exact ⟨hc2.1, htr.symm, (cmeHasArrivalIn_iff db _ _ c2).mp hc2.2⟩
    · rintro ⟨hmem, htr, hex⟩
      rw [List.mem_map]
      refine ⟨c, List.mem_filter.mpr ⟨hmem, ?_⟩, ?_⟩
      · exact (cmeHasArrivalIn_iff db _ _ c).mpr hex
      · rw [htr]
  · intro a ha hcid
    unfold getAnalysesForCme
    refine ⟨_, List.mem_map_of_mem _
      (List.mem_filter.mpr ⟨ha, by simp [hcid]⟩), rfl, ?_⟩
    intro m hm hmid
    refine ⟨_, List.mem_map_of_mem _
      (List.mem_filter.mpr ⟨hm, by simp [hmid]⟩), rfl, ?_⟩
    intro im him himid
    exact List.mem_filter.mpr ⟨him, by simp [himid]⟩

/-- C5 witness: the spec's own scenario — a model run arriving 50 h after
`T` is returned by the window `[T+40h, T+48h]` with `U = 7` h (expanded to
`[T+33h, T+55h]`), with its full tree attached. -/
theorem arrival_window_iff_qualifying_run_witness :
    (exCmeRow, getAnalysesForCme exDB1 exCmeRow.id) ∈
      get_cmes_with_arrivals_in_window exDB1 144000 172800 7 :=
  (arrival_window_iff_qualifying_run exDB1 144000 172800 7 exCmeRow
      (getAnalysesForCme exDB1 exCmeRow.id)).1.mpr
    ⟨by decide, rfl, by decide⟩

/-- C1 (refuting the claimed idempotence): upserting the identical payload
twice leaves the CME and analysis tables at one row each, but the
model-run and spacecraft-impact tables *double* — the replacing analysis
row receives a fresh autoincrement rowid, so the old model runs (keyed by
`UNIQUE(analysis_id, run_number)` on the *old* rowid) are never replaced
and survive as orphans that no current analysis row references. -/
theorem store_cme_reingest_duplicates_children :
    exDB1.cmes.length = 1 ∧ exDB1.analyses.length = 1 ∧
    exDB1.runs.length = 1 ∧ exDB1.impacts.length = 1 ∧
    exDB2.cmes.length = 1 ∧ exDB2.analyses.length = 1 ∧
    exDB2.runs.length = 2 ∧ exDB2.impacts.length = 2 ∧
    (∃ m ∈ exDB2.runs, ∀ a ∈ exDB2.analyses, a.id ≠ m.analysis_id) := by
  decide

end CmeTracker
